import Mathlib

/-!
Verification of the Seraj marketplace backend (Node/Express/Mongoose).

Shallow embedding: user ids are `Nat`, documents are Lean structures,
database lookups are explicit function parameters, fallible operations
return `Except String`.  Each definition mirrors one function of the
JavaScript source.
-/

namespace Seraj

/-- Per-user notification settings (`notificationSettings` subdocument of
the User schema). -/
structure NotificationSettings where
  newListings : Bool
  priceChanges : Bool
  statusChanges : Bool
  listingUpdates : Bool
deriving Repr, DecidableEq

/-- Notification `type` enum of the Notification schema. -/
inductive NotifType where
  | NEW_LISTING
  | PRICE_CHANGE
  | STATUS_CHANGE
  | LISTING_UPDATE
  | FOLLOW
  | OTHER
deriving Repr, DecidableEq

/-- A populated follower document, as produced by
`User.findById(userId).populate('followers')`: only the fields the
fan-out helpers read. -/
structure Follower where
  _id : Nat
  notificationSettings : NotificationSettings
deriving Repr, DecidableEq

/-- A notification document as built by the fan-out helpers and handed
to `Notification.insertMany` / `new Notification(...)`. -/
structure NotificationDoc where
  recipient : Nat
  sender : Nat
  type : NotifType
  listing : Option Nat
  message : String
deriving Repr, DecidableEq

/-- The seller user document as read by the notification service:
`_id`, `firstName` and the populated `followers` array. -/
structure SellerUser where
  _id : Nat
  firstName : String
  followers : List Follower
deriving Repr, DecidableEq

/-- Listing fields read by the notification service. -/
structure ListingDoc where
  _id : Nat
  title : String
  price : Int
  status : String
deriving Repr, DecidableEq

/-- `notifyFollowersNewListing` (notificationService): filter the
followers on `notificationSettings.newListings`, map each to a
`NEW_LISTING` document, and call `insertMany` only when the list is
non-empty.  `some docs` models the performed insert, `none` models "no
insert was performed". -/
def notifyFollowersNewListing (userId : Nat) (user : SellerUser)
    (listing : ListingDoc) : Option (List NotificationDoc) :=
  let notifications :=
    (user.followers.filter (fun follower => follower.notificationSettings.newListings)).map
      (fun follower =>
        { recipient := follower._id
          sender := userId
          type := NotifType.NEW_LISTING
          listing := some listing._id
          message := "قام " ++ user.firstName ++ " بإضافة إعلان جديد: " ++ listing.title })
  if notifications.length > 0 then some notifications else none

/-- `notifyFollowersPriceChange`: gate is `priceChanges`. -/
def notifyFollowersPriceChange (userId : Nat) (user : SellerUser)
    (listing : ListingDoc) (oldPrice : Int) : Option (List NotificationDoc) :=
  let notifications :=
    (user.followers.filter (fun follower => follower.notificationSettings.priceChanges)).map
      (fun follower =>
        { recipient := follower._id
          sender := userId
          type := NotifType.PRICE_CHANGE
          listing := some listing._id
          message := "تم تغيير سعر إعلان \"" ++ listing.title ++ "\" من " ++
            toString oldPrice ++ " إلى " ++ toString listing.price })
  if notifications.length > 0 then some notifications else none

/-- `notifyFollowersStatusChange`: gate is `statusChanges`. -/
def notifyFollowersStatusChange (userId : Nat) (user : SellerUser)
    (listing : ListingDoc) (oldStatus : String) : Option (List NotificationDoc) :=
  let notifications :=
    (user.followers.filter (fun follower => follower.notificationSettings.statusChanges)).map
      (fun follower =>
        { recipient := follower._id
          sender := userId
          type := NotifType.STATUS_CHANGE
          listing := some listing._id
          message := "تم تغيير حالة إعلان \"" ++ listing.title ++ "\" من " ++
            oldStatus ++ " إلى " ++ listing.status })
  if notifications.length > 0 then some notifications else none

/-- Update descriptor passed to `notifyFollowersListingUpdate`. -/
structure ListingUpdates where
  priceChanged : Bool
  oldPrice : Int
deriving Repr, DecidableEq

/-- `notifyFollowersListingUpdate`: gate is `listingUpdates`; the message
mentions the price change when `updates.priceChanged`. -/
def notifyFollowersListingUpdate (userId : Nat) (user : SellerUser)
    (listing : ListingDoc) (updates : ListingUpdates) : Option (List NotificationDoc) :=
  let notificationMessage :=
    let base := "قام " ++ user.firstName ++ " بتحديث إعلان \"" ++ listing.title ++ "\""
    if updates.priceChanged then
      base ++ " - تم تغيير السعر من " ++ toString updates.oldPrice ++
        " إلى " ++ toString listing.price
    else base
  let notifications :=
    (user.followers.filter (fun follower => follower.notificationSettings.listingUpdates)).map
      (fun follower =>
        { recipient := follower._id
          sender := userId
          type := NotifType.LISTING_UPDATE
          listing := some listing._id
          message := notificationMessage })
  if notifications.length > 0 then some notifications else none

/-- Helper for stating C1: the fan-out pattern shared by the four
helpers, `filter` on a gate then `map` to a document. -/
def fanOutDocs (gate : Follower → Bool) (mk : Follower → NotificationDoc)
    (followers : List Follower) : List NotificationDoc :=
  (followers.filter gate).map mk

theorem fanOutDocs_count_of_gate (gate : Follower → Bool) (mk : Follower → NotificationDoc)
    (hmk : ∀ f, (mk f).recipient = f._id) :
    ∀ followers : List Follower, (followers.map Follower._id).Nodup →
    ∀ f ∈ followers, gate f = true →
    (fanOutDocs gate mk followers).countP (fun d => d.recipient == f._id) = 1 := by
  intro followers
  induction followers with
  | nil => intro _ f hf; cases hf
  | cons a l ih =>
    intro hnd f hf hg
    simp only [List.map_cons, List.nodup_cons] at hnd
    obtain ⟨ha, hndl⟩ := hnd
    rcases List.mem_cons.mp hf with heq | hfl
    · subst heq
      have hzero : (fanOutDocs gate mk l).countP (fun d => d.recipient == f._id) = 0 := by
        rw [List.countP_eq_zero]
        intro d hd
        simp only [fanOutDocs, List.mem_map, List.mem_filter] at hd
        obtain ⟨b, ⟨hbl, _⟩, rfl⟩ := hd
        simp only [hmk, beq_iff_eq]
        intro hbf
        exact ha (hbf ▸ List.mem_map_of_mem Follower._id hbl)
      simp only [fanOutDocs, List.filter_cons, hg, if_true, List.map_cons, List.countP_cons]
      simp only [fanOutDocs] at hzero
      simp [hzero, hmk]
    · have hne : a._id ≠ f._id := by
        intro h
        exact ha (h ▸ List.mem_map_of_mem Follower._id hfl)
      have htail := ih hndl f hfl hg
      simp only [fanOutDocs, List.filter_cons]
      cases hga : gate a with
      | true =>
        simp only [if_true, List.map_cons, List.countP_cons]
        simp only [fanOutDocs] at htail
        simp [htail, hmk, hne]
      | false =>
        simp only [Bool.false_eq_true, if_false]
        simpa only [fanOutDocs] using htail

theorem fanOutDocs_not_mem_of_not_gate (gate : Follower → Bool) (mk : Follower → NotificationDoc)
    (hmk : ∀ f, (mk f).recipient = f._id) :
    ∀ followers : List Follower, (followers.map Follower._id).Nodup →
    ∀ f ∈ followers, gate f = false →
    ∀ d ∈ fanOutDocs gate mk followers, d.recipient ≠ f._id := by
  intro followers
  induction followers with
  | nil => intro _ f hf; cases hf
  | cons a l ih =>
    intro hnd f hf hg d hd
    simp only [List.map_cons, List.nodup_cons] at hnd
    obtain ⟨ha, hndl⟩ := hnd
    simp only [fanOutDocs, List.filter_cons] at hd
    rcases List.mem_cons.mp hf with heq | hfl
    · subst heq
      rw [hg] at hd
      simp only [Bool.false_eq_true, if_false] at hd
      simp only [List.mem_map, List.mem_filter] at hd
      obtain ⟨b, ⟨hbl, _⟩, rfl⟩ := hd
      rw [hmk]
      intro hbf
      exact ha (hbf ▸ List.mem_map_of_mem Follower._id hbl)
    · cases hga : gate a with
      | false =>
        rw [hga] at hd
        simp only [Bool.false_eq_true, if_false] at hd
        exact ih hndl f hfl hg d hd
      | true =>
        rw [hga] at hd
        simp only [if_true, List.map_cons] at hd
        rcases List.mem_cons.mp hd with hdeq | hdl
        · subst hdeq
          rw [hmk]
          intro h
          exact ha (h ▸ List.mem_map_of_mem Follower._id hfl)
        · exact ih hndl f hfl hg d hdl

theorem fanOutDocs_shape (gate : Follower → Bool) (mk : Follower → NotificationDoc)
    (followers : List Follower) :
    ∀ d ∈ fanOutDocs gate mk followers, ∃ f ∈ followers, gate f = true ∧ d = mk f := by
  intro d hd
  simp only [fanOutDocs, List.mem_map, List.mem_filter] at hd
  rcases hd with ⟨b, ⟨hbl, hbg⟩, rfl⟩
  exact ⟨b, hbl, hbg, rfl⟩

/-- Correctness of one gated fan-out run, in the words of the spec: no
insert happens exactly when the gate filters every follower out, and an
inserted batch holds exactly one document per gate-enabled follower
(recipient = that follower), every document naming the seller as sender,
the stated type, and the given listing, and no document for a
gate-disabled follower. -/
def GatedFanOutOk (gate : Follower → Bool) (userId : Nat) (user : SellerUser)
    (ty : NotifType) (lid : Nat) (result : Option (List NotificationDoc)) : Prop :=
  (result = none ↔ user.followers.filter gate = []) ∧
  ∀ res, result = some res →
    (∀ f ∈ user.followers, gate f = true →
       res.countP (fun d => d.recipient == f._id) = 1) ∧
    (∀ f ∈ user.followers, gate f = false → ∀ d ∈ res, d.recipient ≠ f._id) ∧
    (∀ d ∈ res, d.sender = userId ∧ d.type = ty ∧ d.listing = some lid)

theorem gatedFanOutOk_of (gate : Follower → Bool) (mk : Follower → NotificationDoc)
    (userId : Nat) (user : SellerUser) (ty : NotifType) (lid : Nat)
    (hnd : (user.followers.map Follower._id).Nodup)
    (hr : ∀ f, (mk f).recipient = f._id)
    (hs : ∀ f, (mk f).sender = userId)
    (ht : ∀ f, (mk f).type = ty)
    (hl : ∀ f, (mk f).listing = some lid) :
    GatedFanOutOk gate userId user ty lid
      (if (fanOutDocs gate mk user.followers).length > 0
        then some (fanOutDocs gate mk user.followers) else none) := by
  constructor
  · constructor
    · intro h
      by_cases hlen : (fanOutDocs gate mk user.followers).length > 0
      · rw [if_pos hlen] at h; cases h
      · have : (user.followers.filter gate).length = 0 := by
          have := Nat.eq_zero_of_not_pos hlen
          simpa [fanOutDocs] using this
        exact List.length_eq_zero.mp this
    · intro h
      have hlen : (fanOutDocs gate mk user.followers).length = 0 := by
        simp [fanOutDocs, h]
      rw [if_neg]
      omega
  · intro res hres
    by_cases hlen : (fanOutDocs gate mk user.followers).length > 0
    · rw [if_pos hlen] at hres
      injection hres with hres
      subst hres
      refine ⟨?_, ?_, ?_⟩
      · intro f hf hg
        exact fanOutDocs_count_of_gate gate mk hr user.followers hnd f hf hg
      · intro f hf hg
        exact fanOutDocs_not_mem_of_not_gate gate mk hr user.followers hnd f hf hg
      · intro d hd
        obtain ⟨f, _, _, rfl⟩ := fanOutDocs_shape gate mk user.followers d hd
        exact ⟨hs f, ht f, hl f⟩
    · rw [if_neg hlen] at hres
      cases hres

/-- C1: each of the four follower fan-out helpers, applied to a seller
whose follower ids are distinct, inserts exactly one notification per
follower whose corresponding setting (`newListings`, `priceChanges`,
`statusChanges`, `listingUpdates`) is enabled — recipient the follower,
sender the seller, listing the given one — none for a disabled follower,
and performs no insert exactly when the gated set is empty. -/
theorem C1_notifyFollowers_gated_fanout (userId : Nat) (user : SellerUser)
    (listing : ListingDoc) (oldPrice : Int) (oldStatus : String) (updates : ListingUpdates)
    (hnd : (user.followers.map Follower._id).Nodup) :
    GatedFanOutOk (fun f => f.notificationSettings.newListings) userId user
      NotifType.NEW_LISTING listing._id (notifyFollowersNewListing userId user listing) ∧
    GatedFanOutOk (fun f => f.notificationSettings.priceChanges) userId user
      NotifType.PRICE_CHANGE listing._id (notifyFollowersPriceChange userId user listing oldPrice) ∧
    GatedFanOutOk (fun f => f.notificationSettings.statusChanges) userId user
      NotifType.STATUS_CHANGE listing._id (notifyFollowersStatusChange userId user listing oldStatus) ∧
    GatedFanOutOk (fun f => f.notificationSettings.listingUpdates) userId user
      NotifType.LISTING_UPDATE listing._id (notifyFollowersListingUpdate userId user listing updates) := by
  refine ⟨?_, ?_, ?_, ?_⟩
  · exact gatedFanOutOk_of _ _ userId user _ listing._id hnd
      (fun f => rfl) (fun f => rfl) (fun f => rfl) (fun f => rfl)
  · exact gatedFanOutOk_of _ _ userId user _ listing._id hnd
      (fun f => rfl) (fun f => rfl) (fun f => rfl) (fun f => rfl)
  · exact gatedFanOutOk_of _ _ userId user _ listing._id hnd
      (fun f => rfl) (fun f => rfl) (fun f => rfl) (fun f => rfl)
  · exact gatedFanOutOk_of _ _ userId user _ listing._id hnd
      (fun f => rfl) (fun f => rfl) (fun f => rfl) (fun f => rfl)

/-- Witness for C1 at a concrete seller with two followers. -/
theorem C1_notifyFollowers_gated_fanout_witness :
    ((([⟨1, ⟨true, false, true, false⟩⟩, ⟨2, ⟨false, true, false, true⟩⟩] :
        List Follower).map Follower._id).Nodup) ∧
    GatedFanOutOk (fun f => f.notificationSettings.newListings) 10
      ⟨10, "n", [⟨1, ⟨true, false, true, false⟩⟩, ⟨2, ⟨false, true, false, true⟩⟩]⟩
      NotifType.NEW_LISTING 5
      (notifyFollowersNewListing 10
        ⟨10, "n", [⟨1, ⟨true, false, true, false⟩⟩, ⟨2, ⟨false, true, false, true⟩⟩]⟩
        ⟨5, "t", 9, "active"⟩) :=
  ⟨by decide,
   (C1_notifyFollowers_gated_fanout 10
      ⟨10, "n", [⟨1, ⟨true, false, true, false⟩⟩, ⟨2, ⟨false, true, false, true⟩⟩]⟩
      ⟨5, "t", 9, "active"⟩ 7 "sold" ⟨false, 7⟩ (by decide)).1⟩

/-- Recipient user document as read by `sendNotification`
(`User.findById(recipientId)`). -/
structure RecipientUser where
  _id : Nat
  notificationSettings : NotificationSettings
deriving Repr, DecidableEq

/-- `shouldSendNotification(user, type)`: switch on the notification
type over the recipient's settings; `FOLLOW` and unknown types are
always allowed. -/
def shouldSendNotification (user : RecipientUser) (ty : NotifType) : Bool :=
  let settings := user.notificationSettings
  match ty with
  | NotifType.NEW_LISTING => settings.newListings
  | NotifType.LISTING_UPDATE => settings.listingUpdates
  | NotifType.PRICE_CHANGE => settings.priceChanges
  | NotifType.STATUS_CHANGE => settings.statusChanges
  | NotifType.FOLLOW => true
  | NotifType.OTHER => true

/-- The database operations the notification service awaits.  Each may
fail (a rejected promise), modelled by `Except String`.  `findSeller`
folds a null result into the error case, since the service dereferences
`user.followers` unconditionally and the `TypeError` lands in the same
`catch`. -/
structure DbEnv where
  findSeller : Nat → Except String SellerUser
  insertMany : List NotificationDoc → Except String Unit
  findUser : Nat → Except String (Option RecipientUser)
  saveNotification : NotificationDoc → Except String Unit

/-- How an async helper finishes: resolve normally, or reject with a
(re-)thrown error. -/
inductive HelperOutcome (α : Type) where
  | returned (val : α)
  | threw (err : String)
deriving Repr, DecidableEq

/-- The `try`-block of `notifyFollowersNewListing`: look the seller up,
build the gated batch, insert it when non-empty. -/
def notifyFollowersNewListingTry (db : DbEnv) (userId : Nat) (listing : ListingDoc) :
    Except String (Option (List NotificationDoc)) := do
  let user ← db.findSeller userId
  match notifyFollowersNewListing userId user listing with
  | some docs =>
    let _ ← db.insertMany docs
    pure (some docs)
  | none => pure none

/-- `notifyFollowersNewListing` as a whole: the `catch` only calls
`console.error`, so a failed try-block still resolves normally. -/
def notifyFollowersNewListingRun (db : DbEnv) (userId : Nat) (listing : ListingDoc) :
    HelperOutcome (Option (List NotificationDoc)) :=
  match notifyFollowersNewListingTry db userId listing with
  | Except.ok v => HelperOutcome.returned v
  | Except.error _ => HelperOutcome.returned none

/-- `try`-block of `notifyFollowersPriceChange`. -/
def notifyFollowersPriceChangeTry (db : DbEnv) (userId : Nat) (listing : ListingDoc)
    (oldPrice : Int) : Except String (Option (List NotificationDoc)) := do
  let user ← db.findSeller userId
  match notifyFollowersPriceChange userId user listing oldPrice with
  | some docs =>
    let _ ← db.insertMany docs
    pure (some docs)
  | none => pure none

/-- `notifyFollowersPriceChange`: catch logs and returns normally. -/
def notifyFollowersPriceChangeRun (db : DbEnv) (userId : Nat) (listing : ListingDoc)
    (oldPrice : Int) : HelperOutcome (Option (List NotificationDoc)) :=
  match notifyFollowersPriceChangeTry db userId listing oldPrice with
  | Except.ok v => HelperOutcome.returned v
  | Except.error _ => HelperOutcome.returned none

/-- `try`-block of `notifyFollowersStatusChange`. -/
def notifyFollowersStatusChangeTry (db : DbEnv) (userId : Nat) (listing : ListingDoc)
    (oldStatus : String) : Except String (Option (List NotificationDoc)) := do
  let user ← db.findSeller userId
  match notifyFollowersStatusChange userId user listing oldStatus with
  | some docs =>
    let _ ← db.insertMany docs
    pure (some docs)
  | none => pure none

/-- `notifyFollowersStatusChange`: catch logs and returns normally. -/
def notifyFollowersStatusChangeRun (db : DbEnv) (userId : Nat) (listing : ListingDoc)
    (oldStatus : String) : HelperOutcome (Option (List NotificationDoc)) :=
  match notifyFollowersStatusChangeTry db userId listing oldStatus with
  | Except.ok v => HelperOutcome.returned v
  | Except.error _ => HelperOutcome.returned none

/-- `try`-block of `notifyFollowersListingUpdate`. -/
def notifyFollowersListingUpdateTry (db : DbEnv) (userId : Nat) (listing : ListingDoc)
    (updates : ListingUpdates) : Except String (Option (List NotificationDoc)) := do
  let user ← db.findSeller userId
  match notifyFollowersListingUpdate userId user listing updates with
  | some docs =>
    let _ ← db.insertMany docs
    pure (some docs)
  | none => pure none

/-- `notifyFollowersListingUpdate`: catch logs and returns normally. -/
def notifyFollowersListingUpdateRun (db : DbEnv) (userId : Nat) (listing : ListingDoc)
    (updates : ListingUpdates) : HelperOutcome (Option (List NotificationDoc)) :=
  match notifyFollowersListingUpdateTry db userId listing updates with
  | Except.ok v => HelperOutcome.returned v
  | Except.error _ => HelperOutcome.returned none

/-- `createNotification(data)`: save the document; the catch logs and
then `throw error` — the failure propagates. -/
def createNotificationRun (db : DbEnv) (data : NotificationDoc) :
    HelperOutcome NotificationDoc :=
  match db.saveNotification data with
  | Except.ok _ => HelperOutcome.returned data
  | Except.error e => HelperOutcome.threw e

/-- `sendNotification`: look the recipient up (missing → `throw new
Error('المستخدم غير موجود')`), gate on `shouldSendNotification`
(returning `null` when disabled), else `createNotification`; the catch
logs and re-throws, so every failure propagates. -/
def sendNotificationRun (db : DbEnv) (recipientId senderId : Nat) (ty : NotifType)
    (message : String) (listingId : Option Nat) : HelperOutcome (Option NotificationDoc) :=
  match db.findUser recipientId with
  | Except.error e => HelperOutcome.threw e
  | Except.ok none => HelperOutcome.threw "المستخدم غير موجود"
  | Except.ok (some recipient) =>
    if shouldSendNotification recipient ty then
      match createNotificationRun db
          { recipient := recipientId, sender := senderId, type := ty,
            listing := listingId, message := message } with
      | HelperOutcome.returned n => HelperOutcome.returned (some n)
      | HelperOutcome.threw e => HelperOutcome.threw e
    else HelperOutcome.returned none

/-- `sendBulkNotifications`: `Promise.all` over `sendNotification`; the
first rejection makes the whole call reject (catch logs and re-throws);
otherwise the resolved values are filtered of `null`s. -/
def sendBulkNotificationsRun (db : DbEnv) (recipientIds : List Nat) (senderId : Nat)
    (ty : NotifType) (message : String) (listingId : Option Nat) :
    HelperOutcome (List NotificationDoc) :=
  let results := recipientIds.map
    (fun rid => sendNotificationRun db rid senderId ty message listingId)
  match results.findSome? (fun r =>
      match r with
      | HelperOutcome.threw e => some e
      | HelperOutcome.returned _ => none) with
  | some e => HelperOutcome.threw e
  | none => HelperOutcome.returned (results.filterMap (fun r =>
      match r with
      | HelperOutcome.returned v => v
      | HelperOutcome.threw _ => none))

/-- A database environment whose lookups all fail. -/
def dbBoom : DbEnv where
  findSeller := fun _ => Except.error "boom"
  insertMany := fun _ => Except.ok ()
  findUser := fun _ => Except.error "boom"
  saveNotification := fun _ => Except.error "boom"

/-- C2 counterexample: `sendNotification` does not return normally on a
failed recipient lookup — it re-throws the error to its caller. -/
theorem C2_sendNotification_rethrows_counterexample :
    sendNotificationRun dbBoom 1 2 NotifType.FOLLOW "m" none =
      HelperOutcome.threw "boom" := rfl

/-- C2 (amended): the four follower fan-out helpers resolve normally on
every input (failures only logged), while `sendNotification`,
`createNotification` and `sendBulkNotifications` re-throw after logging:
a failing step makes them reject with that error. -/
theorem C2_error_handling_amended (db : DbEnv) (userId rid sid : Nat)
    (listing : ListingDoc) (oldPrice : Int) (oldStatus : String)
    (updates : ListingUpdates) (ty : NotifType) (message : String)
    (listingId : Option Nat) :
    (∃ v, notifyFollowersNewListingRun db userId listing = HelperOutcome.returned v) ∧
    (∃ v, notifyFollowersPriceChangeRun db userId listing oldPrice =
      HelperOutcome.returned v) ∧
    (∃ v, notifyFollowersStatusChangeRun db userId listing oldStatus =
      HelperOutcome.returned v) ∧
    (∃ v, notifyFollowersListingUpdateRun db userId listing updates =
      HelperOutcome.returned v) ∧
    (∀ e, db.findUser rid = Except.error e →
      sendNotificationRun db rid sid ty message listingId = HelperOutcome.threw e) ∧
    (db.findUser rid = Except.ok none →
      ∃ e, sendNotificationRun db rid sid ty message listingId = HelperOutcome.threw e) ∧
    (∀ d e, db.saveNotification d = Except.error e →
      createNotificationRun db d = HelperOutcome.threw e) ∧
    (∀ e, sendNotificationRun db rid sid ty message listingId = HelperOutcome.threw e →
      sendBulkNotificationsRun db [rid] sid ty message listingId = HelperOutcome.threw e) := by
  refine ⟨?_, ?_, ?_, ?_, ?_, ?_, ?_, ?_⟩
  · cases h : notifyFollowersNewListingTry db userId listing with
    | ok v => exact ⟨v, by simp [notifyFollowersNewListingRun, h]⟩
    | error e => exact ⟨none, by simp [notifyFollowersNewListingRun, h]⟩
  · cases h : notifyFollowersPriceChangeTry db userId listing oldPrice with
    | ok v => exact ⟨v, by simp [notifyFollowersPriceChangeRun, h]⟩
    | error e => exact ⟨none, by simp [notifyFollowersPriceChangeRun, h]⟩
  · cases h : notifyFollowersStatusChangeTry db userId listing oldStatus with
    | ok v => exact ⟨v, by simp [notifyFollowersStatusChangeRun, h]⟩
    | error e => exact ⟨none, by simp [notifyFollowersStatusChangeRun, h]⟩
  · cases h : notifyFollowersListingUpdateTry db userId listing updates with
    | ok v => exact ⟨v, by simp [notifyFollowersListingUpdateRun, h]⟩
    | error e => exact ⟨none, by simp [notifyFollowersListingUpdateRun, h]⟩
  · intro e he
    simp [sendNotificationRun, he]
  · intro h
    exact ⟨"المستخدم غير موجود", by simp [sendNotificationRun, h]⟩
  · intro d e h
    simp [createNotificationRun, h]
  · intro e he
    simp [sendBulkNotificationsRun, he]

/-- Witness for C2 (amended) at the all-failing database. -/
theorem C2_error_handling_amended_witness :
    (∃ v, notifyFollowersNewListingRun dbBoom 1 ⟨5, "t", 9, "a"⟩ =
      HelperOutcome.returned v) ∧
    sendNotificationRun dbBoom 1 2 NotifType.FOLLOW "m" none =
      HelperOutcome.threw "boom" ∧
    sendBulkNotificationsRun dbBoom [1] 2 NotifType.FOLLOW "m" none =
      HelperOutcome.threw "boom" := by
  have h := C2_error_handling_amended dbBoom 1 1 2 ⟨5, "t", 9, "a"⟩ 7 "sold"
    ⟨false, 7⟩ NotifType.FOLLOW "m" none
  refine ⟨h.1, ?_, ?_⟩
  · exact h.2.2.2.2.1 "boom" rfl
  · exact h.2.2.2.2.2.2.2 "boom" (h.2.2.2.2.1 "boom" rfl)

/-- If `pat` is a prefix of the char list, return the remainder. -/
def stripBy : List Char → List Char → Option (List Char)
  | [], s => some s
  | _ :: _, [] => none
  | p :: ps, c :: cs => if c = p then stripBy ps cs else none

/-- Remove the first occurrence of `pat` (JavaScript
`String.prototype.replace(pat, '')` with a string pattern replaces only
the first occurrence, anywhere in the string). -/
def dropFirstMatch (pat : List Char) : List Char → List Char
  | [] =>
    match stripBy pat [] with
    | some rest => rest
    | none => []
  | c :: cs =>
    match stripBy pat (c :: cs) with
    | some rest => rest
    | none => c :: dropFirstMatch pat cs

/-- JS `header.replace('Bearer ', '')`. -/
def jsReplaceBearer (s : String) : String :=
  String.mk (dropFirstMatch "Bearer ".toList s.toList)

/-- JS `String.prototype.startsWith`. -/
def jsStartsWith (s pat : String) : Bool :=
  (stripBy pat.toList s.toList).isSome

/-- JS `String.prototype.split` with a one-character separator. -/
def splitOnChar (sep : Char) : List Char → List (List Char)
  | [] => [[]]
  | c :: cs =>
    let rest := splitOnChar sep cs
    if c = sep then [] :: rest
    else
      match rest with
      | r :: rs => (c :: r) :: rs
      | [] => [[c]]

/-- A stored user document; `password` is a column the auth middleware
must strip (`.select('-password')`). -/
structure StoredUser where
  _id : Nat
  role : String
  password : Option String
deriving Repr, DecidableEq

/-- `.select('-password')`: the loaded document without the password. -/
def selectNoPassword (u : StoredUser) : StoredUser :=
  { u with password := none }

/-- Outcome of `protectRoute`: an error response, or `next()` with the
loaded user placed on `req.user`. -/
inductive ProtectOutcome where
  | respond (status : Nat)
  | next (reqUser : StoredUser)
deriving Repr, DecidableEq

/-- `protectRoute(req, res, next)`.  `verify` models
`jwt.verify(token, JWT_SECRET)` — `some uid` when the token verifies
against the single secret and embeds user id `uid`, `none` when it
throws; `db` models `User.findById`.  (`user.updateLastActive()` is a
store effect with no bearing on the response and is not modelled.) -/
def protectRoute (verify : String → Option Nat) (db : Nat → Option StoredUser)
    (authHeader : Option String) : ProtectOutcome :=
  let token := authHeader.map jsReplaceBearer
  match token with
  | none => ProtectOutcome.respond 401
  | some t =>
    if t = "" then ProtectOutcome.respond 401
    else
      match verify t with
      | none => ProtectOutcome.respond 401
      | some uid =>
        match db uid with
        | none => ProtectOutcome.respond 404
        | some user => ProtectOutcome.next (selectNoPassword user)

/-- Outcome of `checkRole(roles)` / `optionalAuth`-style middleware that
passes control without loading a full document. -/
inductive RoleOutcome where
  | respond (status : Nat)
  | next
deriving Repr, DecidableEq

/-- `checkRole(roles)`: 401 without a loaded user, 403 when the loaded
user's role is not in `roles`, otherwise `next()`. -/
def checkRole (roles : List String) (reqUser : Option StoredUser) : RoleOutcome :=
  match reqUser with
  | none => RoleOutcome.respond 401
  | some u =>
    if !(roles.contains u.role) then RoleOutcome.respond 403
    else RoleOutcome.next

/-- Outcome of `optionalAuth`: an error response (never produced), or
`next()` with `req.user` set to `{ id }` (`some uid`) or `null`. -/
inductive OptionalOutcome where
  | respond (status : Nat)
  | next (reqUser : Option Nat)
deriving Repr, DecidableEq

/-- `authHeader.split(' ')[1]`: the piece between the first and second
space. -/
def bearerToken (h : String) : String :=
  String.mk ((splitOnChar ' ' h.toList).getD 1 [])

/-- `optionalAuth`: guests continue with `req.user = null`; a valid
`Bearer` token whose user exists yields `req.user = { id: user._id }`;
every failure also falls through to `next()` with `null`. -/
def optionalAuth (verify : String → Option Nat) (db : Nat → Option StoredUser)
    (authHeader : Option String) : OptionalOutcome :=
  match authHeader with
  | none => OptionalOutcome.next none
  | some h =>
    if !(jsStartsWith h "Bearer ") then OptionalOutcome.next none
    else
      match verify (bearerToken h) with
      | none => OptionalOutcome.next none
      | some uid =>
        match db uid with
        | some user => OptionalOutcome.next (some user._id)
        | none => OptionalOutcome.next none

/-- C3: `protectRoute` answers 401 on a missing/empty token and on a
token the secret rejects, 404 when the embedded id matches no user, and
otherwise passes control with the user — password stripped — on
`req.user`; `checkRole` then answers 403 exactly when the loaded user's
role is outside `roles`, and passes control otherwise. -/
theorem C3_protectRoute_checkRole (verify : String → Option Nat)
    (db : Nat → Option StoredUser) (authHeader : Option String) (roles : List String) :
    (authHeader = none → protectRoute verify db authHeader = ProtectOutcome.respond 401) ∧
    (∀ h, authHeader = some h → jsReplaceBearer h = "" →
      protectRoute verify db authHeader = ProtectOutcome.respond 401) ∧
    (∀ h, authHeader = some h → jsReplaceBearer h ≠ "" →
      verify (jsReplaceBearer h) = none →
      protectRoute verify db authHeader = ProtectOutcome.respond 401) ∧
    (∀ h uid, authHeader = some h → jsReplaceBearer h ≠ "" →
      verify (jsReplaceBearer h) = some uid → db uid = none →
      protectRoute verify db authHeader = ProtectOutcome.respond 404) ∧
    (∀ h uid u, authHeader = some h → jsReplaceBearer h ≠ "" →
      verify (jsReplaceBearer h) = some uid → db uid = some u →
      protectRoute verify db authHeader = ProtectOutcome.next (selectNoPassword u) ∧
        (selectNoPassword u).password = none) ∧
    (∀ u, checkRole roles (some u) = RoleOutcome.next ↔ u.role ∈ roles) ∧
    (∀ u, checkRole roles (some u) = RoleOutcome.respond 403 ↔ u.role ∉ roles) := by
  refine ⟨?_, ?_, ?_, ?_, ?_, ?_, ?_⟩
  · intro h; subst h; rfl
  · intro h hh ht; subst hh; simp [protectRoute, ht]
  · intro h hh ht hv; subst hh; simp [protectRoute, ht, hv]
  · intro h uid hh ht hv hd; subst hh; simp [protectRoute, ht, hv, hd]
  · intro h uid u hh ht hv hd; subst hh
    exact ⟨by simp [protectRoute, ht, hv, hd], rfl⟩
  · intro u
    by_cases hm : u.role ∈ roles
    · have hc : roles.contains u.role = true := by simpa using hm
      simp [checkRole, hc, hm]
    · have hc : roles.contains u.role = false := by simpa using hm
      simp [checkRole, hc, hm]
  · intro u
    by_cases hm : u.role ∈ roles
    · have hc : roles.contains u.role = true := by simpa using hm
      simp [checkRole, hc, hm]
    · have hc : roles.contains u.role = false := by simpa using hm
      simp [checkRole, hc, hm]

/-- Witness for C3 at a concrete verifier, store, header and role list. -/
theorem C3_protectRoute_checkRole_witness :
    protectRoute (fun t => if t = "tok" then some 7 else none)
        (fun n => if n = 7 then some ⟨7, "admin", some "pw"⟩ else none)
        (some "Bearer tok") =
      ProtectOutcome.next (selectNoPassword ⟨7, "admin", some "pw"⟩) ∧
    (selectNoPassword (⟨7, "admin", some "pw"⟩ : StoredUser)).password = none ∧
    checkRole ["admin"] (some (selectNoPassword ⟨7, "admin", some "pw"⟩)) =
      RoleOutcome.next := by
  have h := C3_protectRoute_checkRole (fun t => if t = "tok" then some 7 else none)
    (fun n => if n = 7 then some ⟨7, "admin", some "pw"⟩ else none)
    (some "Bearer tok") ["admin"]
  have h5 := h.2.2.2.2.1 "Bearer tok" 7 ⟨7, "admin", some "pw"⟩ rfl
    (by decide) (by decide) (by decide)
  refine ⟨h5.1, h5.2, ?_⟩
  exact (h.2.2.2.2.2.1 (selectNoPassword ⟨7, "admin", some "pw"⟩)).mpr (by decide)

/-- C8: `optionalAuth` never writes a response: on every input it calls
`next()`, with `req.user = { id }` exactly when the header is a
`Bearer` token that verifies and names a stored user, and
`req.user = null` in every other case. -/
theorem C8_optionalAuth_never_rejects (verify : String → Option Nat)
    (db : Nat → Option StoredUser) (authHeader : Option String) :
    (∃ v, optionalAuth verify db authHeader = OptionalOutcome.next v) ∧
    (∀ s, optionalAuth verify db authHeader ≠ OptionalOutcome.respond s) ∧
    (authHeader = none → optionalAuth verify db authHeader = OptionalOutcome.next none) ∧
    (∀ h, authHeader = some h → jsStartsWith h "Bearer " = false →
      optionalAuth verify db authHeader = OptionalOutcome.next none) ∧
    (∀ h, authHeader = some h → jsStartsWith h "Bearer " = true →
      verify (bearerToken h) = none →
      optionalAuth verify db authHeader = OptionalOutcome.next none) ∧
    (∀ h uid, authHeader = some h → jsStartsWith h "Bearer " = true →
      verify (bearerToken h) = some uid →
      db uid = none →
      optionalAuth verify db authHeader = OptionalOutcome.next none) ∧
    (∀ h uid u, authHeader = some h → jsStartsWith h "Bearer " = true →
      verify (bearerToken h) = some uid →
      db uid = some u →
      optionalAuth verify db authHeader = OptionalOutcome.next (some u._id)) := by
  refine ⟨?_, ?_, ?_, ?_, ?_, ?_, ?_⟩
  · cases authHeader with
    | none => exact ⟨none, rfl⟩
    | some h =>
      cases hs : jsStartsWith h "Bearer " with
      | false => exact ⟨none, by simp [optionalAuth, hs]⟩
      | true =>
        cases hv : verify (bearerToken h) with
        | none => exact ⟨none, by simp [optionalAuth, hs, hv]⟩
        | some uid =>
          cases hd : db uid with
          | none => exact ⟨none, by simp [optionalAuth, hs, hv, hd]⟩
          | some u => exact ⟨some u._id, by simp [optionalAuth, hs, hv, hd]⟩
  · intro s hcontra
    cases authHeader with
    | none => cases hcontra
    | some h =>
      cases hs : jsStartsWith h "Bearer " with
      | false => simp [optionalAuth, hs] at hcontra
      | true =>
        cases hv : verify (bearerToken h) with
        | none => simp [optionalAuth, hs, hv] at hcontra
        | some uid =>
          cases hd : db uid with
          | none => simp [optionalAuth, hs, hv, hd] at hcontra
          | some u => simp [optionalAuth, hs, hv, hd] at hcontra
  · intro h; subst h; rfl
  · intro h hh hs; subst hh; simp [optionalAuth, hs]
  · intro h hh hs hv; subst hh; simp [optionalAuth, hs, hv]
  · intro h uid hh hs hv hd; subst hh; simp [optionalAuth, hs, hv, hd]
  · intro h uid u hh hs hv hd; subst hh; simp [optionalAuth, hs, hv, hd]

/-- Witness for C8: the bad-token and good-token cases both call
`next()`. -/
theorem C8_optionalAuth_never_rejects_witness :
    optionalAuth (fun t => if t = "tok" then some 7 else none)
        (fun n => if n = 7 then some ⟨7, "user", none⟩ else none)
        (some "garbage") = OptionalOutcome.next none ∧
    optionalAuth (fun t => if t = "tok" then some 7 else none)
        (fun n => if n = 7 then some ⟨7, "user", none⟩ else none)
        (some "Bearer tok") = OptionalOutcome.next (some 7) := by
  have h1 := C8_optionalAuth_never_rejects (fun t => if t = "tok" then some 7 else none)
    (fun n => if n = 7 then some ⟨7, "user", none⟩ else none) (some "garbage")
  have h2 := C8_optionalAuth_never_rejects (fun t => if t = "tok" then some 7 else none)
    (fun n => if n = 7 then some ⟨7, "user", none⟩ else none) (some "Bearer tok")
  refine ⟨?_, ?_⟩
  · exact h1.2.2.2.1 "garbage" rfl (by decide)
  · exact h2.2.2.2.2.2.2 "Bearer tok" 7 ⟨7, "user", none⟩ rfl (by decide)
      (by decide) (by decide)

/-- One entry of the User schema's `ratings` array. -/
structure RatingEntry where
  rater : Nat
  rating : Int
  comment : Option String
deriving Repr, DecidableEq

/-- The slice of a user document that the rating logic touches. -/
structure RatedUser where
  _id : Nat
  ratings : List RatingEntry
  averageRating : ℚ
  totalRatings : Nat
deriving Repr, DecidableEq

/-- JS `parseFloat((x).toFixed(1))` on an exact rational: the nearest
multiple of one tenth, a tie going to the larger candidate (the
ECMAScript `toFixed` rule). -/
def roundTenth (q : ℚ) : ℚ :=
  ((⌊q * 10 + 1 / 2⌋ : ℤ) : ℚ) / 10

/-- `userSchema.methods.calculateAverageRating`: empty ratings reset
both fields to 0; otherwise `totalRatings` is the entry count and
`averageRating` the mean rounded to one decimal digit. -/
def calculateAverageRating (u : RatedUser) : RatedUser :=
  if u.ratings.length = 0 then
    { u with averageRating := 0, totalRatings := 0 }
  else
    let sum : ℚ := (u.ratings.map (fun r => (r.rating : ℚ))).sum
    { u with
      averageRating := roundTenth (sum / (u.ratings.length : ℚ)),
      totalRatings := u.ratings.length }

/-- `userSchema.pre('save')`: recompute the average exactly when the
`ratings` path was modified. -/
def preSaveUser (ratingsModified : Bool) (u : RatedUser) : RatedUser :=
  if ratingsModified then calculateAverageRating u else u

/-- C4: `calculateAverageRating` sets `totalRatings` to the number of
entries and `averageRating` to the arithmetic mean rounded to one
decimal digit (a multiple of 1/10 at minimal distance from the mean);
with an empty list both fields become 0; the pre-save hook runs it
exactly when the ratings path was modified. -/
theorem C4_calculateAverageRating (u : RatedUser) :
    (calculateAverageRating u).totalRatings = u.ratings.length ∧
    (u.ratings.length = 0 →
      (calculateAverageRating u).averageRating = 0 ∧
        (calculateAverageRating u).totalRatings = 0) ∧
    (u.ratings.length ≠ 0 →
      (calculateAverageRating u).averageRating =
        roundTenth ((u.ratings.map (fun r => (r.rating : ℚ))).sum / (u.ratings.length : ℚ)) ∧
      (∃ k : ℤ, (calculateAverageRating u).averageRating = (k : ℚ) / 10) ∧
      (∀ j : ℤ,
        |(calculateAverageRating u).averageRating -
            (u.ratings.map (fun r => (r.rating : ℚ))).sum / (u.ratings.length : ℚ)| ≤
          |(j : ℚ) / 10 -
            (u.ratings.map (fun r => (r.rating : ℚ))).sum / (u.ratings.length : ℚ)|)) ∧
    preSaveUser true u = calculateAverageRating u ∧
    preSaveUser false u = u := by
  refine ⟨?_, ?_, ?_, rfl, rfl⟩
  · by_cases h : u.ratings.length = 0
    · simp [calculateAverageRating, h]
    · simp [calculateAverageRating, h]
  · intro h
    simp [calculateAverageRating, h]
  · intro h
    set mean : ℚ := (u.ratings.map (fun r => (r.rating : ℚ))).sum / (u.ratings.length : ℚ)
      with hmean
    have havg : (calculateAverageRating u).averageRating = roundTenth mean := by
      simp [calculateAverageRating, h, hmean]
    refine ⟨havg, ⟨⌊mean * 10 + 1 / 2⌋, by rw [havg]; rfl⟩, ?_⟩
    intro j
    rw [havg]
    have hr : roundTenth mean = ((round (10 * mean) : ℤ) : ℚ) / 10 := by
      rw [round_eq, roundTenth, mul_comm]
    rw [hr]
    have h1 : ((round (10 * mean) : ℤ) : ℚ) / 10 - mean =
        (((round (10 * mean) : ℤ) : ℚ) - 10 * mean) / 10 := by ring
    have h2 : (j : ℚ) / 10 - mean = ((j : ℚ) - 10 * mean) / 10 := by ring
    rw [h1, h2, abs_div, abs_div]
    have h10 : |(10 : ℚ)| = 10 := by norm_num
    rw [h10]
    have := round_le (10 * mean) j
    rw [abs_sub_comm (10 * mean) ((round (10 * mean) : ℤ) : ℚ),
      abs_sub_comm (10 * mean) ((j : ℤ) : ℚ)] at this
    exact div_le_div_of_nonneg_right this (by norm_num) |>.trans_eq rfl

/-- Concrete user for the C4 witness: two ratings, 4 and 5. -/
def ratedUserEx : RatedUser :=
  { _id := 3, ratings := [⟨1, 4, none⟩, ⟨2, 5, none⟩], averageRating := 0, totalRatings := 0 }

/-- Witness for C4: mean 9/2 of ratings 4 and 5, rounded value at
minimal distance from the mean. -/
theorem C4_calculateAverageRating_witness :
    ratedUserEx.ratings.length ≠ 0 ∧
    (calculateAverageRating ratedUserEx).totalRatings = ratedUserEx.ratings.length ∧
    (∃ k : ℤ, (calculateAverageRating ratedUserEx).averageRating = (k : ℚ) / 10) := by
  have h := C4_calculateAverageRating ratedUserEx
  exact ⟨by decide, h.1, (h.2.2.1 (by decide)).2.1⟩

/-- `listingSchema.methods.toggleFavorite(userId)`: `indexOf` the id in
`favorites`; absent (`-1`, here modelled by `indexOf` returning the
length) → `push`, present → `splice(index, 1)`. -/
def toggleFavorite (favorites : List Nat) (userId : Nat) : List Nat :=
  if favorites.indexOf userId = favorites.length then favorites ++ [userId]
  else favorites.eraseIdx (favorites.indexOf userId)

theorem toggleFavorite_not_mem (favorites : List Nat) (userId : Nat)
    (h : userId ∉ favorites) : toggleFavorite favorites userId = favorites ++ [userId] := by
  rw [toggleFavorite, if_pos (List.indexOf_eq_length.mpr h)]

theorem toggleFavorite_mem (favorites : List Nat) (userId : Nat)
    (h : userId ∈ favorites) : toggleFavorite favorites userId = favorites.erase userId := by
  rw [toggleFavorite, if_neg, List.eraseIdx_indexOf_eq_erase]
  intro hc
  exact List.indexOf_eq_length.mp hc h

/-- C6: on a duplicate-free favorites list, `toggleFavorite` adds an
absent id, removes a present one leaving every other id's membership
unchanged, and applying it twice restores the original membership. -/
theorem C6_toggleFavorite_involutive (favorites : List Nat) (userId : Nat)
    (hnd : favorites.Nodup) :
    (userId ∉ favorites →
      toggleFavorite favorites userId = favorites ++ [userId]) ∧
    (userId ∈ favorites →
      userId ∉ toggleFavorite favorites userId ∧
      ∀ v, v ≠ userId → (v ∈ toggleFavorite favorites userId ↔ v ∈ favorites)) ∧
    (∀ v, v ∈ toggleFavorite (toggleFavorite favorites userId) userId ↔ v ∈ favorites) := by
  refine ⟨toggleFavorite_not_mem favorites userId, ?_, ?_⟩
  · intro hm
    rw [toggleFavorite_mem favorites userId hm]
    exact ⟨hnd.not_mem_erase, fun v hv => List.mem_erase_of_ne hv⟩
  · intro v
    by_cases hm : userId ∈ favorites
    · rw [toggleFavorite_mem favorites userId hm,
        toggleFavorite_not_mem _ userId hnd.not_mem_erase]
      by_cases hv : v = userId
      · subst hv
        simp [hm]
      · simp only [List.mem_append, List.mem_singleton, hv, or_false]
        exact List.mem_erase_of_ne hv
    · rw [toggleFavorite_not_mem favorites userId hm,
        toggleFavorite_mem _ userId (by simp),
        List.erase_append_right _ hm]
      simp

/-- Witness for C6 on the duplicate-free list `[1, 2, 3]`. -/
theorem C6_toggleFavorite_involutive_witness :
    ([1, 2, 3] : List Nat).Nodup ∧
    (∀ v, v ∈ toggleFavorite (toggleFavorite [1, 2, 3] 2) 2 ↔ v ∈ ([1, 2, 3] : List Nat)) :=
  ⟨by decide, (C6_toggleFavorite_involutive [1, 2, 3] 2 (by decide)).2.2⟩

/-- The char class `[a-zA-Z0-9._-]` (local part of the registration
email regex). -/
def localChar (c : Char) : Bool :=
  c.isAlpha || c.isDigit || c = '.' || c = '_' || c = '-'

/-- The char class `[a-zA-Z0-9.-]` (domain part). -/
def domainChar (c : Char) : Bool :=
  c.isAlpha || c.isDigit || c = '.' || c = '-'

/-- `p+` followed by a continuation: consume one `p`-character, then
either hand the rest to `k` or keep consuming (regex backtracking,
made explicit). -/
def plusThen (p : Char → Bool) (k : List Char → Bool) : List Char → Bool
  | [] => false
  | c :: cs => p c && (k cs || plusThen p k cs)

/-- The suffix `\.[a-zA-Z]{2,}$`. -/
def tldTail (cs : List Char) : Bool :=
  match cs with
  | '.' :: t => decide (2 ≤ t.length) && t.all Char.isAlpha
  | _ => false

/-- The registration email regex
`/^[a-zA-Z0-9._-]+@[a-zA-Z0-9.-]+\.[a-zA-Z]{2,}$/`, compiled to an
anchored matcher. -/
def emailMatch (s : String) : Bool :=
  plusThen localChar
    (fun cs =>
      match cs with
      | '@' :: rest => plusThen domainChar tldTail rest
      | _ => false)
    s.toList

/-- The phone regex `/^(?:\+|00)[1-9]\d{4,14}$/`. -/
def phoneMatch (s : String) : Bool :=
  let tail : Option (List Char) :=
    match s.toList with
    | '+' :: r => some r
    | '0' :: '0' :: r => some r
    | _ => none
  match tail with
  | some (c :: ds) =>
    ('1' ≤ c && c ≤ '9') && ds.all Char.isDigit &&
      decide (4 ≤ ds.length) && decide (ds.length ≤ 14)
  | _ => false

/-- A registration request body; each field may be absent. -/
structure RegBody where
  email : Option String
  password : Option String
  firstName : Option String
  lastName : Option String
  phone : Option String
deriving Repr, DecidableEq

/-- JS truthiness of an optional string field: absent and `''` are
falsy. -/
def truthy : Option String → Bool
  | none => false
  | some s => !(s == "")

/-- Outcome of a validation middleware. -/
inductive ValidateOutcome where
  | respond (status : Nat)
  | next
deriving Repr, DecidableEq

/-- `validateRegistration`: four mandatory checks (email regex,
password length, first/last name length) then the optional phone
check, each answering 400; otherwise `next()`. -/
def validateRegistration (b : RegBody) : ValidateOutcome :=
  if !(truthy b.email) || !(emailMatch (b.email.getD "")) then
    ValidateOutcome.respond 400
  else if !(truthy b.password) || (b.password.getD "").length < 6 then
    ValidateOutcome.respond 400
  else if !(truthy b.firstName) || (b.firstName.getD "").length < 2 then
    ValidateOutcome.respond 400
  else if !(truthy b.lastName) || (b.lastName.getD "").length < 2 then
    ValidateOutcome.respond 400
  else if truthy b.phone && !(phoneMatch (b.phone.getD "")) then
    ValidateOutcome.respond 400
  else ValidateOutcome.next

theorem truthy_iff (o : Option String) :
    truthy o = true ↔ ∃ s, o = some s ∧ s ≠ "" := by
  cases o with
  | none => simp [truthy]
  | some s => simp [truthy]

theorem emailMatch_ne_empty {e : String} (h : emailMatch e = true) : e ≠ "" := by
  intro he
  subst he
  simp [emailMatch, plusThen] at h

/-- C5: the body is forwarded iff the email matches the email regex,
the password is present with length ≥ 6, both names are present with
length ≥ 2, and a present non-empty phone matches the phone regex; any
violation is answered with status 400. -/
theorem C5_validateRegistration (b : RegBody) :
    (validateRegistration b = ValidateOutcome.next ↔
      (∃ e, b.email = some e ∧ emailMatch e = true) ∧
      (∃ p, b.password = some p ∧ 6 ≤ p.length) ∧
      (∃ f, b.firstName = some f ∧ 2 ≤ f.length) ∧
      (∃ l, b.lastName = some l ∧ 2 ≤ l.length) ∧
      (∀ ph, b.phone = some ph → ph ≠ "" → phoneMatch ph = true)) ∧
    (validateRegistration b ≠ ValidateOutcome.next →
      validateRegistration b = ValidateOutcome.respond 400) := by
  constructor
  · unfold validateRegistration
    split_ifs with h1 h2 h3 h4 h5
    · simp only [Bool.or_eq_true, Bool.not_eq_true'] at h1
      constructor
      · intro h; cases h
      · rintro ⟨⟨e, he, hm⟩, -⟩
        rcases h1 with h1 | h1
        · rw [he] at h1
          simp [truthy] at h1
          exact emailMatch_ne_empty hm h1
        · rw [he] at h1; simp at h1; rw [h1] at hm; cases hm
    · simp only [Bool.or_eq_true, Bool.not_eq_true', decide_eq_true_eq] at h2
      constructor
      · intro h; cases h
      · rintro ⟨-, ⟨p, hp, hl⟩, -⟩
        rcases h2 with h2 | h2
        · rw [hp] at h2
          simp [truthy] at h2
          rw [h2] at hl
          exact absurd hl (by decide)
        · rw [hp] at h2; simp at h2; omega
    · simp only [Bool.or_eq_true, Bool.not_eq_true', decide_eq_true_eq] at h3
      constructor
      · intro h; cases h
      · rintro ⟨-, -, ⟨f, hf, hl⟩, -⟩
        rcases h3 with h3 | h3
        · rw [hf] at h3
          simp [truthy] at h3
          rw [h3] at hl
          exact absurd hl (by decide)
        · rw [hf] at h3; simp at h3; omega
    · simp only [Bool.or_eq_true, Bool.not_eq_true', decide_eq_true_eq] at h4
      constructor
      · intro h; cases h
      · rintro ⟨-, -, -, ⟨l, hl, hll⟩, -⟩
        rcases h4 with h4 | h4
        · rw [hl] at h4
          simp [truthy] at h4
          rw [h4] at hll
          exact absurd hll (by decide)
        · rw [hl] at h4; simp at h4; omega
    · simp only [Bool.and_eq_true, Bool.not_eq_true'] at h5
      constructor
      · intro h; cases h
      · rintro ⟨-, -, -, -, hph⟩
        obtain ⟨htr, hnm⟩ := h5
        rw [truthy_iff] at htr
        obtain ⟨ph, hph', hne⟩ := htr
        have := hph ph hph' hne
        rw [hph'] at hnm; simp at hnm
        rw [this] at hnm; cases hnm
    · simp only [Bool.or_eq_true, Bool.not_eq_true', decide_eq_true_eq, not_or,
        Bool.not_eq_false, Bool.and_eq_true, not_and, Bool.not_eq_true',
        Bool.not_eq_false'] at h1 h2 h3 h4 h5
      constructor
      · intro _
        obtain ⟨he, hm⟩ := h1
        obtain ⟨hp, hpl⟩ := h2
        obtain ⟨hf, hfl⟩ := h3
        obtain ⟨hl, hll⟩ := h4
        obtain ⟨e, hee, -⟩ := truthy_iff _ |>.mp he
        obtain ⟨p, hpp, -⟩ := truthy_iff _ |>.mp hp
        obtain ⟨f, hff, -⟩ := truthy_iff _ |>.mp hf
        obtain ⟨l, hlll, -⟩ := truthy_iff _ |>.mp hl
        refine ⟨⟨e, hee, by rw [hee] at hm; simpa using hm⟩,
          ⟨p, hpp, by rw [hpp] at hpl; simp at hpl; omega⟩,
          ⟨f, hff, by rw [hff] at hfl; simp at hfl; omega⟩,
          ⟨l, hlll, by rw [hlll] at hll; simp at hll; omega⟩, ?_⟩
        intro ph hph hne
        have htr : truthy b.phone = true := truthy_iff _ |>.mpr ⟨ph, hph, hne⟩
        have := h5 htr
        rw [hph] at this; simpa using this
      · intro _; rfl
  · unfold validateRegistration
    split_ifs <;> simp

/-- Valid registration body for the C5 witness. -/
def regBodyOk : RegBody :=
  { email := some "ab@cd.ef", password := some "secret1",
    firstName := some "Jo", lastName := some "Do", phone := some "+12345678" }

/-- Invalid registration body (bad email) for the C5 witness. -/
def regBodyBad : RegBody :=
  { email := some "not-an-email", password := some "secret1",
    firstName := some "Jo", lastName := some "Do", phone := none }

/-- Witness for C5: a valid body is forwarded, an invalid one is
answered with 400. -/
theorem C5_validateRegistration_witness :
    validateRegistration regBodyOk = ValidateOutcome.next ∧
    validateRegistration regBodyBad = ValidateOutcome.respond 400 := by
  constructor
  · exact (C5_validateRegistration regBodyOk).1.mpr
      ⟨⟨"ab@cd.ef", rfl, by decide⟩, ⟨"secret1", rfl, by decide⟩,
       ⟨"Jo", rfl, by decide⟩, ⟨"Do", rfl, by decide⟩,
       fun ph hph _ => by
        simp only [regBodyOk, Option.some.injEq] at hph
        rw [← hph]; decide⟩
  · exact (C5_validateRegistration regBodyBad).2 (by decide)

/-- Minute-of-hour rule compiled from the cron pattern
`*/14 * * * *`: the minutes field steps by 14 from 0; the other four
fields are wildcards. -/
def cronMinuteMatches (minuteOfHour : Nat) : Bool :=
  minuteOfHour % 14 == 0

/-- Whether the keep-alive job fires at absolute minute `t`. -/
def cronFires (t : Nat) : Bool :=
  cronMinuteMatches (t % 60)

/-- What one tick logs: `Cron job executed` on status 200, `Cron job
failed` with the status otherwise, the error on a request error. -/
inductive TickLog where
  | success
  | failure (statusCode : Nat)
  | requestError (err : String)
deriving Repr, DecidableEq

/-- The `http.get` callback of the keep-alive job. -/
def onTick (resp : Except String Nat) : TickLog :=
  match resp with
  | Except.ok code => if code == 200 then TickLog.success else TickLog.failure code
  | Except.error e => TickLog.requestError e

/-- C7 counterexample: the job fires at minute 56 and then next at
minute 60 (minute 0 of the following hour) — a 4-minute gap, so it does
not fire every 14 minutes. -/
theorem C7_cron_gap_counterexample :
    cronFires 56 = true ∧ cronFires 57 = false ∧ cronFires 58 = false ∧
    cronFires 59 = false ∧ cronFires 60 = true ∧ 60 - 56 ≠ 14 := by decide

/-- C7 (amended): the cron pattern `*/14 * * * *` fires exactly at the
minutes of each hour divisible by 14 (0, 14, 28, 42, 56) — 14 minutes
apart within an hour, 4 minutes across the hour boundary — and each
tick issues one GET, logging success exactly on status 200 and the
failure (or request error) otherwise. -/
theorem C7_cron_schedule_amended (t code : Nat) (e : String) :
    (cronFires t = true ↔
      t % 60 = 0 ∨ t % 60 = 14 ∨ t % 60 = 28 ∨ t % 60 = 42 ∨ t % 60 = 56) ∧
    (onTick (Except.ok code) = TickLog.success ↔ code = 200) ∧
    (code ≠ 200 → onTick (Except.ok code) = TickLog.failure code) ∧
    onTick (Except.error e) = TickLog.requestError e := by
  refine ⟨?_, ?_, ?_, rfl⟩
  · simp only [cronFires, cronMinuteMatches, beq_iff_eq]
    have h : t % 60 < 60 := Nat.mod_lt _ (by norm_num)
    omega
  · by_cases h : code = 200
    · subst h; simp [onTick]
    · simp [onTick, h]
  · intro h
    simp [onTick, h]

/-- Witness for C7 (amended) at minute 28 and a failing status. -/
theorem C7_cron_schedule_amended_witness :
    cronFires 28 = true ∧ onTick (Except.ok 500) = TickLog.failure 500 := by
  have h := C7_cron_schedule_amended 28 500 "e"
  exact ⟨h.1.mpr (by decide), h.2.2.1 (by decide)⟩

/-- The slice of a user document the follow routes touch. -/
structure FollowUser where
  _id : Nat
  firstName : String
  following : List Nat
  followers : List Nat
deriving Repr, DecidableEq

/-- What a follow-route handler responds and saves: the documents
passed to `save()` (empty on every rejection) and the created follow
notification. -/
structure FollowResult where
  status : Nat
  savedUsers : List FollowUser
  savedNotifs : List NotificationDoc
deriving Repr, DecidableEq

/-- `POST /api/follow/:userId`: 404 when the target does not exist,
400 on self-follow, 400 on duplicate follow (the target already in the
actor's `following`), otherwise push each id into the other document's
list, save both, and create a FOLLOW notification.  A missing actor
document would make `user.id` throw, landing in the catch → 500. -/
def postFollow (db : Nat → Option FollowUser) (actorId paramId : Nat) : FollowResult :=
  match db paramId with
  | none => { status := 404, savedUsers := [], savedNotifs := [] }
  | some userToFollow =>
    match db actorId with
    | none => { status := 500, savedUsers := [], savedNotifs := [] }
    | some user =>
      if user._id = userToFollow._id then
        { status := 400, savedUsers := [], savedNotifs := [] }
      else if user.following.contains userToFollow._id then
        { status := 400, savedUsers := [], savedNotifs := [] }
      else
        let user' := { user with following := user.following ++ [userToFollow._id] }
        let userToFollow' :=
          { userToFollow with followers := userToFollow.followers ++ [user._id] }
        let notification : NotificationDoc :=
          { recipient := userToFollow._id, sender := user._id, type := NotifType.FOLLOW,
            listing := none, message := user.firstName ++ " بدأ بمتابعتك" }
        { status := 200, savedUsers := [user', userToFollow'],
          savedNotifs := [notification] }

/-- `DELETE /api/follow/:userId`: 404 when the target does not exist,
400 when the actor does not follow the target, otherwise filter the
target id out of `following` and the actor id out of `followers` and
save both. -/
def deleteFollow (db : Nat → Option FollowUser) (actorId paramId : Nat) : FollowResult :=
  match db paramId with
  | none => { status := 404, savedUsers := [], savedNotifs := [] }
  | some userToUnfollow =>
    match db actorId with
    | none => { status := 500, savedUsers := [], savedNotifs := [] }
    | some user =>
      if !(user.following.contains userToUnfollow._id) then
        { status := 400, savedUsers := [], savedNotifs := [] }
      else
        let user' := { user with
          following := user.following.filter (fun i => !(i == userToUnfollow._id)) }
        let userToUnfollow' := { userToUnfollow with
          followers := userToUnfollow.followers.filter (fun i => !(i == user._id)) }
        { status := 200, savedUsers := [user', userToUnfollow'], savedNotifs := [] }

/-- C9: a successful follow records the edge on both documents, a
successful unfollow removes it from both, and self-follow, duplicate
follow and unfollow-of-unfollowed are answered 400 with nothing
saved. -/
theorem C9_follow_unfollow_symmetry (db : Nat → Option FollowUser)
    (actorId paramId : Nat) (u t : FollowUser)
    (hu : db actorId = some u) (ht : db paramId = some t) :
    (u._id ≠ t._id → t._id ∉ u.following →
      ∃ u' t' ns, postFollow db actorId paramId =
          { status := 200, savedUsers := [u', t'], savedNotifs := ns } ∧
        t._id ∈ u'.following ∧ u._id ∈ t'.followers) ∧
    (u._id = t._id →
      postFollow db actorId paramId =
        { status := 400, savedUsers := [], savedNotifs := [] }) ∧
    (u._id ≠ t._id → t._id ∈ u.following →
      postFollow db actorId paramId =
        { status := 400, savedUsers := [], savedNotifs := [] }) ∧
    (t._id ∈ u.following →
      ∃ u' t', deleteFollow db actorId paramId =
          { status := 200, savedUsers := [u', t'], savedNotifs := [] } ∧
        t._id ∉ u'.following ∧ u._id ∉ t'.followers) ∧
    (t._id ∉ u.following →
      deleteFollow db actorId paramId =
        { status := 400, savedUsers := [], savedNotifs := [] }) := by
  refine ⟨?_, ?_, ?_, ?_, ?_⟩
  · intro hne hmem
    have hc : u.following.contains t._id = false := by simpa using hmem
    refine ⟨{ u with following := u.following ++ [t._id] },
      { t with followers := t.followers ++ [u._id] },
      [{ recipient := t._id, sender := u._id, type := NotifType.FOLLOW,
         listing := none, message := u.firstName ++ " بدأ بمتابعتك" }],
      ?_, by simp, by simp⟩
    simp [postFollow, hu, ht, hne, hc, hmem]
  · intro he
    simp [postFollow, hu, ht, he]
  · intro hne hmem
    have hc : u.following.contains t._id = true := by simpa using hmem
    simp [postFollow, hu, ht, hne, hc, hmem]
  · intro hmem
    have hc : u.following.contains t._id = true := by simpa using hmem
    refine ⟨{ u with following := u.following.filter (fun i => !(i == t._id)) },
      { t with followers := t.followers.filter (fun i => !(i == u._id)) }, ?_, ?_, ?_⟩
    · simp [deleteFollow, hu, ht, hc, hmem]
    · simp
    · simp
  · intro hmem
    have hc : u.following.contains t._id = false := by simpa using hmem
    simp [deleteFollow, hu, ht, hc, hmem]

/-- Witness for C9: a concrete two-user store, follow then reject the
duplicate. -/
theorem C9_follow_unfollow_symmetry_witness :
    (∃ u' t' ns,
      postFollow
        (fun n => if n = 1 then some ⟨1, "a", [], []⟩ else
          if n = 2 then some ⟨2, "b", [], []⟩ else none) 1 2 =
        { status := 200, savedUsers := [u', t'], savedNotifs := ns } ∧
      (2 : Nat) ∈ u'.following ∧ (1 : Nat) ∈ t'.followers) ∧
    postFollow
        (fun n => if n = 1 then some ⟨1, "a", [2], []⟩ else
          if n = 2 then some ⟨2, "b", [], [1]⟩ else none) 1 2 =
      { status := 400, savedUsers := [], savedNotifs := [] } := by
  constructor
  · exact (C9_follow_unfollow_symmetry
      (fun n => if n = 1 then some ⟨1, "a", [], []⟩ else
        if n = 2 then some ⟨2, "b", [], []⟩ else none) 1 2
      ⟨1, "a", [], []⟩ ⟨2, "b", [], []⟩ rfl rfl).1 (by decide) (by decide)
  · exact (C9_follow_unfollow_symmetry
      (fun n => if n = 1 then some ⟨1, "a", [2], []⟩ else
        if n = 2 then some ⟨2, "b", [], [1]⟩ else none) 1 2
      ⟨1, "a", [2], []⟩ ⟨2, "b", [], [1]⟩ rfl rfl).2.2.1 (by decide) (by decide)

/-- `findIndex` over `ratings` for the acting rater, followed by the
in-place overwrite of the found entry's `rating` and `comment`;
`none` models `findIndex` returning `-1` (no entry). -/
def updateFirstRating (raterId : Nat) (rv : Int) (c : Option String) :
    List RatingEntry → Option (List RatingEntry)
  | [] => none
  | r :: rs =>
    if r.rater = raterId then some ({ r with rating := rv, comment := c } :: rs)
    else
      match updateFirstRating raterId rv c rs with
      | some rs' => some (r :: rs')
      | none => none

/-- Body of `POST /api/users/:id/rate`. -/
structure RateBody where
  rating : Option Int
  comment : Option String
deriving Repr, DecidableEq

/-- Response and saved target document of the rate handler (`none`
models that nothing was saved). -/
structure RateResult where
  status : Nat
  savedUser : Option RatedUser
deriving Repr, DecidableEq

/-- `POST /api/users/:id/rate`: reject a falsy or out-of-range rating,
an over-long comment, and a self-rating with 400; 404 on an unknown
target; otherwise overwrite the rater's existing entry in place or push
a new one, then `save()` (which reruns `calculateAverageRating` since
the ratings path was modified). -/
def rateUser (db : Nat → Option RatedUser) (actorId paramId : Nat)
    (body : RateBody) : RateResult :=
  match body.rating with
  | none => { status := 400, savedUser := none }
  | some rating =>
    if rating = 0 ∨ rating < 1 ∨ rating > 5 then
      { status := 400, savedUser := none }
    else if (match body.comment with
        | some c => decide (c.length > 500)
        | none => false) then
      { status := 400, savedUser := none }
    else if paramId = actorId then
      { status := 400, savedUser := none }
    else
      match db paramId with
      | none => { status := 404, savedUser := none }
      | some user =>
        let newRatings :=
          match updateFirstRating actorId rating body.comment user.ratings with
          | some l => l
          | none =>
            user.ratings ++ [{ rater := actorId, rating := rating, comment := body.comment }]
        { status := 200,
          savedUser := some (calculateAverageRating { user with ratings := newRatings }) }

/-- The documented invariant: at most one ratings entry per rater. -/
def AtMostOnePerRater (l : List RatingEntry) : Prop :=
  ∀ a, l.countP (fun r => r.rater == a) ≤ 1

theorem updateFirstRating_length (raterId : Nat) (rv : Int) (c : Option String) :
    ∀ l l', updateFirstRating raterId rv c l = some l' → l'.length = l.length := by
  intro l
  induction l with
  | nil => intro l' h; cases h
  | cons r rs ih =>
    intro l' h
    simp only [updateFirstRating] at h
    by_cases hr : r.rater = raterId
    · rw [if_pos hr] at h
      injection h with h
      subst h
      simp
    · rw [if_neg hr] at h
      cases hrec : updateFirstRating raterId rv c rs with
      | some rs' =>
        rw [hrec] at h
        injection h with h
        subst h
        simp [ih rs' hrec]
      | none => rw [hrec] at h; cases h

theorem updateFirstRating_countP (raterId : Nat) (rv : Int) (c : Option String) :
    ∀ l l', updateFirstRating raterId rv c l = some l' →
      ∀ a, l'.countP (fun r => r.rater == a) = l.countP (fun r => r.rater == a) := by
  intro l
  induction l with
  | nil => intro l' h; cases h
  | cons r rs ih =>
    intro l' h a
    simp only [updateFirstRating] at h
    by_cases hr : r.rater = raterId
    · rw [if_pos hr] at h
      injection h with h
      subst h
      simp [List.countP_cons]
    · rw [if_neg hr] at h
      cases hrec : updateFirstRating raterId rv c rs with
      | some rs' =>
        rw [hrec] at h
        injection h with h
        subst h
        simp [List.countP_cons, ih rs' hrec a]
      | none => rw [hrec] at h; cases h

theorem updateFirstRating_none_iff (raterId : Nat) (rv : Int) (c : Option String) :
    ∀ l, updateFirstRating raterId rv c l = none ↔ ∀ r ∈ l, r.rater ≠ raterId := by
  intro l
  induction l with
  | nil => simp [updateFirstRating]
  | cons r rs ih =>
    simp only [updateFirstRating]
    by_cases hr : r.rater = raterId
    · rw [if_pos hr]
      constructor
      · intro h; cases h
      · intro h
        exact absurd hr (h r (List.mem_cons_self r rs))
    · rw [if_neg hr]
      cases hrec : updateFirstRating raterId rv c rs with
      | some rs' =>
        constructor
        · intro h; cases h
        · intro h
          have := ih.mpr (fun r' hr' => h r' (List.mem_cons_of_mem _ hr'))
          rw [this] at hrec
          cases hrec
      | none =>
        constructor
        · intro _ r' hr'
          rcases List.mem_cons.mp hr' with heq | hm
          · subst heq; exact hr
          · exact ih.mp hrec r' hm
        · intro _; rfl

theorem calculateAverageRating_ratings (u : RatedUser) :
    (calculateAverageRating u).ratings = u.ratings ∧
    (calculateAverageRating u).totalRatings = u.ratings.length := by
  by_cases h : u.ratings.length = 0
  · constructor
    · simp [calculateAverageRating, h]
    · simp [calculateAverageRating, h]
  · constructor
    · simp [calculateAverageRating, h]
    · simp [calculateAverageRating, h]

theorem calculateAverageRating_total_eq (u : RatedUser) :
    (calculateAverageRating u).totalRatings = (calculateAverageRating u).ratings.length := by
  obtain ⟨h1, h2⟩ := calculateAverageRating_ratings u
  rw [h1, h2]

/-- C10: repeated ratings by one rater overwrite in place — the list
and `totalRatings` do not grow — the at-most-one-entry-per-rater
invariant is preserved, and an out-of-range rating, an over-long
comment or a self-rating is answered 400 with nothing saved. -/
theorem C10_rateUser_dedup (db : Nat → Option RatedUser) (actorId paramId : Nat)
    (body : RateBody) (user : RatedUser) (hdb : db paramId = some user) :
    (∀ rv, body.rating = some rv → (rv < 1 ∨ rv > 5) →
      rateUser db actorId paramId body = { status := 400, savedUser := none }) ∧
    (∀ rv c, body.rating = some rv → ¬(rv = 0 ∨ rv < 1 ∨ rv > 5) →
      body.comment = some c → c.length > 500 →
      rateUser db actorId paramId body = { status := 400, savedUser := none }) ∧
    (∀ rv, body.rating = some rv → ¬(rv = 0 ∨ rv < 1 ∨ rv > 5) →
      ¬(∃ c, body.comment = some c ∧ c.length > 500) → paramId = actorId →
      rateUser db actorId paramId body = { status := 400, savedUser := none }) ∧
    (∀ rv, body.rating = some rv → ¬(rv = 0 ∨ rv < 1 ∨ rv > 5) →
      ¬(∃ c, body.comment = some c ∧ c.length > 500) → paramId ≠ actorId →
      ∃ saved,
        rateUser db actorId paramId body = { status := 200, savedUser := some saved } ∧
        saved.totalRatings = saved.ratings.length ∧
        ((∃ r ∈ user.ratings, r.rater = actorId) →
          saved.ratings.length = user.ratings.length) ∧
        (AtMostOnePerRater user.ratings → AtMostOnePerRater saved.ratings)) := by
  refine ⟨?_, ?_, ?_, ?_⟩
  · intro rv hrv hout
    have : rv = 0 ∨ rv < 1 ∨ rv > 5 := Or.inr hout
    simp [rateUser, hrv, this]
  · intro rv c hrv hcond hc hlen
    have hcommB : (match body.comment with
        | some c => decide (c.length > 500)
        | none => false) = true := by
      rw [hc]
      simpa using hlen
    simp [rateUser, hrv, hcond, hcommB]
  · intro rv hrv hcond hcomm hself
    have hcommB : (match body.comment with
        | some c => decide (c.length > 500)
        | none => false) = false := by
      cases hbc : body.comment with
      | none => rfl
      | some c =>
        simp only [decide_eq_false_iff_not]
        intro hgt
        exact hcomm ⟨c, hbc, hgt⟩
    simp [rateUser, hrv, hcond, hcommB, hself]
  · intro rv hrv hcond hcomm hne
    have hcommB : (match body.comment with
        | some c => decide (c.length > 500)
        | none => false) = false := by
      cases hbc : body.comment with
      | none => rfl
      | some c =>
        simp only [decide_eq_false_iff_not]
        intro hgt
        exact hcomm ⟨c, hbc, hgt⟩
    refine ⟨calculateAverageRating { user with ratings :=
      (match updateFirstRating actorId rv body.comment user.ratings with
      | some l => l
      | none =>
        user.ratings ++ [{ rater := actorId, rating := rv, comment := body.comment }]) },
      ?_, ?_, ?_, ?_⟩
    · simp [rateUser, hrv, hcond, hcommB, hne, hdb]
    · exact calculateAverageRating_total_eq _
    · rintro ⟨r, hrm, hrr⟩
      rw [(calculateAverageRating_ratings _).1]
      cases hup : updateFirstRating actorId rv body.comment user.ratings with
      | some l' => simpa using updateFirstRating_length actorId rv body.comment _ l' hup
      | none =>
        exact absurd hrr ((updateFirstRating_none_iff actorId rv body.comment
          user.ratings).mp hup r hrm)
    · intro hinv a
      rw [(calculateAverageRating_ratings _).1]
      cases hup : updateFirstRating actorId rv body.comment user.ratings with
      | some l' =>
        simpa [updateFirstRating_countP actorId rv body.comment _ l' hup a] using hinv a
      | none =>
        simp only [List.countP_append]
        by_cases ha : actorId = a
        · subst ha
          have hz : user.ratings.countP (fun r => r.rater == actorId) = 0 := by
            rw [List.countP_eq_zero]
            intro r hr
            have := (updateFirstRating_none_iff actorId rv body.comment
              user.ratings).mp hup r hr
            simpa using this
          simp [hz, List.countP_cons]
        · have : (([{ rater := actorId, rating := rv, comment := body.comment }] :
              List RatingEntry).countP (fun r => r.rater == a)) = 0 := by
            simp [List.countP_cons, ha]
          rw [this]
          simpa using hinv a

/-- Witness for C10: re-rating by an existing rater keeps the single
entry. -/
theorem C10_rateUser_dedup_witness :
    ∃ saved,
      rateUser (fun n => if n = 2 then some ⟨2, [⟨1, 3, none⟩], 3, 1⟩ else none) 1 2
          { rating := some 5, comment := none } =
        { status := 200, savedUser := some saved } ∧
      saved.ratings.length = 1 := by
  have h := (C10_rateUser_dedup
    (fun n => if n = 2 then some ⟨2, [⟨1, 3, none⟩], 3, 1⟩ else none) 1 2
    { rating := some 5, comment := none } ⟨2, [⟨1, 3, none⟩], 3, 1⟩ rfl).2.2.2
    5 rfl (by decide) (by rintro ⟨c, hc, -⟩; cases hc) (by decide)
  obtain ⟨saved, hs, -, hlen, -⟩ := h
  refine ⟨saved, hs, ?_⟩
  simpa using hlen ⟨⟨1, 3, none⟩, by simp, rfl⟩

end Seraj
